import Mathlib

/-!
Verification of the per-connection request lifecycle of the jetforce Gemini
protocol handler (`jetforce/protocol.py`, class `GeminiProtocol`).

The embedding models one connection as an explicit state record `Connection`.
The socket is modelled as the list of byte chunks handed to `transport.write`,
in order (field `wire`).  Strings are Lean `String`s and Python's
`str.encode()` (UTF-8) is `String.toUTF8`; raw byte payloads are `List UInt8`.
The response-writer methods `write_status`, `write_body` and `flush_status`
are translated line by line from the source, as is `parse_header`,
`build_environ`, `log_request` and the orchestration coroutine
`_handle_request_noblock` (function `handle` below).
-/

/-- The UTF-8 encoding of a string as a list of bytes: Python's
`str.encode()`.  (`ByteArray.toList` is avoided because it is defined by
well-founded recursion and does not reduce.) -/
def strBytes (s : String) : List UInt8 := s.toUTF8.data.toList

/-- A response-body payload, `typing.Union[str, bytes]` in the source. -/
inductive Data where
  | str (s : String)
  | bytes (b : List UInt8)
deriving DecidableEq

/-- `write_body` encodes `str` payloads to bytes and passes `bytes` through:
`if isinstance(data, str): data = data.encode()`. -/
def Data.encode : Data → List UInt8
  | .str s => strBytes s
  | .bytes b => b

/-- Per-connection state of `GeminiProtocol`.

`url`, `status` and `meta` are Python attributes that do not exist until
first assigned (`log_request` catches `AttributeError`), hence `Option`.
`wire` is instrumentation: the list of byte chunks passed to
`transport.write`, in order.  `host` is `client_addr.host` and `timestamp`
is the already-formatted `connected_timestamp` (strftime is external). -/
structure Connection where
  host : String
  timestamp : String
  url : Option String
  status : Option Nat
  meta : Option String
  response_buffer : String
  response_size : Nat
  wire : List (List UInt8)
deriving DecidableEq

/-- `connectionMade`: `response_size = 0`, `response_buffer = ""`, peer and
timestamp captured; `url`, `status`, `meta` not yet set. -/
def connectionMade (host timestamp : String) : Connection :=
  { host := host, timestamp := timestamp, url := none, status := none, meta := none,
    response_buffer := "", response_size := 0, wire := [] }

/-- The Gemini status line `f"{status}\t{meta}\r\n"`. -/
def statusLine (status : Nat) (meta : String) : String :=
  Nat.repr status ++ "\t" ++ meta ++ "\r\n"

/-- `write_status`: records `status` and `meta` and overwrites the internal
buffer with the status line.  Does not touch the socket. -/
def write_status (c : Connection) (status : Nat) (meta : String) : Connection :=
  { c with status := some status, meta := some meta,
           response_buffer := statusLine status meta }

/-- `flush_status`: if the buffer is non-empty (Python truthiness of `str`)
and `response_size` is zero (truthiness of `int`), encode the buffer, add its
length to `response_size` and write it to the socket; in every case clear the
buffer afterwards. -/
def flush_status (c : Connection) : Connection :=
  if c.response_buffer ≠ "" ∧ c.response_size = 0 then
    { c with response_size := c.response_size + (strBytes c.response_buffer).length,
             wire := c.wire ++ [strBytes c.response_buffer],
             response_buffer := "" }
  else
    { c with response_buffer := "" }

/-- `write_body`: encode the payload, flush the pending status line, then add
the payload length to `response_size` and write the payload to the socket. -/
def write_body (c : Connection) (data : Data) : Connection :=
  let bytes := data.encode
  let c' := flush_status c
  { c' with response_size := c'.response_size + bytes.length,
            wire := c'.wire ++ [bytes] }

/-- `log_request`: format the Common-Log-Format-derived line
`'{} [{}] "{}" {} {} {}'`.  If `url`, `status` or `meta` was never assigned
the Python code hits `AttributeError` and skips logging (`none` here). -/
def log_request (c : Connection) : Option String :=
  match c.url, c.status, c.meta with
  | some url, some status, some meta =>
      some (c.host ++ " [" ++ c.timestamp ++ "] \"" ++ url ++ "\" "
        ++ Nat.repr status ++ " " ++ meta ++ " " ++ Nat.repr c.response_size)
  | _, _, _ => none

/-- One call into the response writer. -/
inductive WriterOp where
  | writeStatus (status : Nat) (meta : String)
  | writeBody (data : Data)
  | flush
deriving DecidableEq

/-- Apply one writer call to the connection state. -/
def applyOp (c : Connection) : WriterOp → Connection
  | .writeStatus s m => write_status c s m
  | .writeBody d => write_body c d
  | .flush => flush_status c

/-- Run a sequence of writer calls left to right. -/
def run (c : Connection) : List WriterOp → Connection
  | [] => c
  | op :: ops => run (applyOp c op) ops

/-- The encoded payloads of the `writeBody` calls of a sequence, in order. -/
def bodyChunks : List WriterOp → List (List UInt8)
  | [] => []
  | .writeBody d :: ops => d.encode :: bodyChunks ops
  | _ :: ops => bodyChunks ops

/-- The `(status, meta)` pair of the last `writeStatus` in the sequence
(`write_status` overwrites the buffer, so only the last one is pending). -/
def pendingOf (ops : List WriterOp) : Option (Nat × String) :=
  ops.foldl (fun acc op =>
    match op with
    | .writeStatus s m => some (s, m)
    | _ => acc) none

/-- Failure of `parse_header`: the `ValueError` for an over-long request, or
the `UnicodeDecodeError` from `bytes.decode()`. -/
inductive ProtocolError where
  | tooLong
  | badEncoding
deriving DecidableEq

/-- `parse_header`: reject a raw request line of more than 1024 bytes, then
decode it as UTF-8 (`self.url = self.request.decode()`). -/
def parse_header (request : List UInt8) : Except ProtocolError String :=
  if request.length > 1024 then
    .error .tooLong
  else
    match String.fromUTF8? (ByteArray.mk (Array.mk request)) with
    | some url => .ok url
    | none => .error .badEncoding

/-- Modelled from the spec: the `Status` enumeration lives in
`jetforce.app.base`, which is not among these sources; the spec says only
that a "bad request" and an "application error" family exist and that the
numeric values are owned by the external enumeration.  The standard Gemini
values are used here. -/
def Status.BAD_REQUEST : Nat := 59

/-- Modelled from the spec: see `Status.BAD_REQUEST`. -/
def Status.CGI_ERROR : Nat := 42

/-- One observable interaction of the application callable: a call to the
`write_status` callback it was handed, or a chunk yielded by its response
generator (written by the handler via `write_body`). -/
inductive AppEvent where
  | status (code : Nat) (meta : String)
  | chunk (data : Data)
deriving DecidableEq

/-- The writer call the handler performs for an application event. -/
def AppEvent.toOp : AppEvent → WriterOp
  | .status s m => .writeStatus s m
  | .chunk d => .writeBody d

/-- The observable behaviour of one application invocation: its interactions
in order, and whether it (or `build_environ`, or a generator pull) ends by
raising instead of finishing normally.  An exception mid-stream is the same
as a shorter event list with `raises := true`. -/
structure AppBehavior where
  events : List AppEvent
  raises : Bool
deriving DecidableEq

/-- Outcome of `_handle_request_noblock` for one connection.  `logCalls`
counts invocations of `log_request`, `closeCalls` counts
`transport.loseConnection()`, `serverLogs` counts `server.log_message`
(traceback) calls, and `raised` records whether an exception escaped the
coroutine. -/
structure HandleResult where
  conn : Connection
  accessLog : Option String
  logCalls : Nat
  closeCalls : Nat
  serverLogs : Nat
  raised : Bool
deriving DecidableEq

/-- `_handle_request_noblock`, translated branch by branch.

On a `parse_header` failure the code logs the traceback, writes and flushes
a `BAD_REQUEST` status, closes the transport and re-raises; the second
`try/finally` is never entered, so `log_request` is not called.

On a successful parse the handler stores the url (`parse_header` assigns
`self.url`), dispatches the application and streams its chunks; any
exception from dispatch or streaming is caught once and answered with a
`CGI_ERROR` status; the `finally` block then flushes, logs and closes
exactly once.  (The `environ` dictionary handed to the application is
modelled separately by `build_environ`; a failure inside it is one of the
behaviours covered by `raises`.) -/
def handle (host timestamp : String) (request : List UInt8) (app : AppBehavior) :
    HandleResult :=
  let c := connectionMade host timestamp
  match parse_header request with
  | .error _ =>
      let c := write_status c Status.BAD_REQUEST ("Malformed request")
      let c := flush_status c
      { conn := c, accessLog := none, logCalls := 0, closeCalls := 1,
        serverLogs := 1, raised := true }
  | .ok url =>
      let c := { c with url := some url }
      let c := run c (app.events.map AppEvent.toOp)
      let pair :=
        if app.raises then
          (write_status c Status.CGI_ERROR ("An unexpected error occurred"), 1)
        else
          (c, 0)
      let c := flush_status pair.1
      { conn := c, accessLog := log_request c, logCalls := 1, closeCalls := 1,
        serverLogs := pair.2, raised := false }

/-- A network address as twisted exposes it: `host` and `port`. -/
structure Address where
  host : String
  port : Nat
deriving DecidableEq

/-- The data `build_environ` reads about a presented client certificate:
the mapping returned by `inspect_certificate` (external helper, spec §1:
"assumed to return a ready-made attribute mapping") together with the
handshake metadata read from the TLS connection handle. -/
structure ClientCert where
  common_name : String
  fingerprint : String
  not_before : String
  not_after : String
  serial_number : String
  verified : Bool
  cipher : String
  protocol_version : String
deriving DecidableEq

/-- A sample client certificate, used to instantiate theorems at a concrete
input. -/
def exampleCert : ClientCert :=
  { common_name := "alice", fingerprint := "SHA256:aa", not_before := "2020-01-01",
    not_after := "2030-01-01", serial_number := "7", verified := true,
    cipher := "TLS_AES_256_GCM_SHA384", protocol_version := "TLSv1.3" }

/-- A value stored in the `environ` dictionary. -/
inductive EnvValue where
  | null
  | str (s : String)
  | bool (b : Bool)
  | cert (c : ClientCert)
deriving DecidableEq

/-- The dictionary passed to `environ.update(...)` when a peer certificate
is present. -/
def tls_environ (c : ClientCert) : List (String × EnvValue) :=
  [("client_certificate", .cert c),
   ("AUTH_TYPE", .str ("CERTIFICATE")),
   ("REMOTE_USER", .str c.common_name),
   ("TLS_CLIENT_HASH", .str c.fingerprint),
   ("TLS_CLIENT_NOT_BEFORE", .str c.not_before),
   ("TLS_CLIENT_NOT_AFTER", .str c.not_after),
   ("TLS_CLIENT_SERIAL_NUMBER", .str c.serial_number),
   ("TLS_CLIENT_VERIFIED", .bool c.verified),
   ("TLS_CIPHER", .str c.cipher),
   ("TLS_VERSION", .str c.protocol_version)]

/-- Python `dict.update`: overwrite the values of existing keys in place and
append entries with new keys, preserving insertion order. -/
def dictUpdate (base upd : List (String × EnvValue)) : List (String × EnvValue) :=
  base.map (fun kv =>
    match upd.lookup kv.1 with
    | some v => (kv.1, v)
    | none => kv)
  ++ upd.filter (fun kv => (base.lookup kv.1).isNone)

/-- `build_environ`, translated entry by entry.

Inputs that the source reads from collaborating objects are parameters:
`url` is `self.url`; `hostname` is `self.server.hostname`; `version` is
`__version__`; `path` and `query` are `urllib.parse.urlparse(self.url)`'s
components (the stdlib parser is external); `client_addr` is
`self.transport.getPeer()`; `server_port` is the port the `GeminiServer` is
listening on (modelled from the spec's "server identity (hostname, port,
software banner)" — note the source never reads it); `cert` is the result of
`getPeerCertificate()` together with the data extracted from it. -/
def build_environ (url hostname version path query : String)
    (client_addr : Address) (server_port : Nat) (cert : Option ClientCert) :
    List (String × EnvValue) :=
  let environ : List (String × EnvValue) :=
    [("GEMINI_URL", .str url),
     ("HOSTNAME", .str hostname),
     ("PATH_INFO", .str path),
     ("QUERY_STRING", .str query),
     ("REMOTE_ADDR", .str client_addr.host),
     ("REMOTE_HOST", .str client_addr.host),
     ("SERVER_NAME", .str hostname),
     ("SERVER_PORT", .str (Nat.repr client_addr.port)),
     ("SERVER_PROTOCOL", .str ("GEMINI")),
     ("SERVER_SOFTWARE", .str ("jetforce/" ++ version)),
     ("client_certificate", .null)]
  match cert with
  | none => environ
  | some c => dictUpdate environ (tls_environ c)

/-- The nine TLS-identity keys that appear exactly when a client certificate
was presented. -/
def tlsIdentityKeys : List String :=
  ["AUTH_TYPE", "REMOTE_USER", "TLS_CLIENT_HASH", "TLS_CLIENT_NOT_BEFORE",
   "TLS_CLIENT_NOT_AFTER", "TLS_CLIENT_SERIAL_NUMBER", "TLS_CLIENT_VERIFIED",
   "TLS_CIPHER", "TLS_VERSION"]

/-! ## Helper lemmas -/

/-- The UTF-8 byte list of a string is its flatMapped per-character encoding. -/
theorem strBytes_eq_flatMap (s : String) :
    strBytes s = s.data.flatMap String.utf8EncodeChar := rfl

/-- Every character encodes to at least one byte. -/
theorem utf8EncodeChar_length_pos (c : Char) : 0 < (String.utf8EncodeChar c).length := by
  rw [String.length_utf8EncodeChar]
  exact c.utf8Size_pos

/-- A string with at least one character encodes to at least one byte. -/
theorem strBytes_ne_nil (s : String) (h : s.data ≠ []) : strBytes s ≠ [] := by
  rw [strBytes_eq_flatMap]
  cases hd : s.data with
  | nil => exact absurd hd h
  | cons c cs =>
      have hpos : 0 < (String.utf8EncodeChar c).length := utf8EncodeChar_length_pos c
      intro hnil
      rw [List.flatMap_cons] at hnil
      rcases List.append_eq_nil.mp hnil with ⟨h1, _⟩
      rw [h1] at hpos
      exact Nat.lt_irrefl 0 hpos

/-- The status line always contains at least the tab and the CRLF. -/
theorem statusLine_data_ne_nil (s : Nat) (m : String) : (statusLine s m).data ≠ [] := by
  have hrn : ("\r\n" : String).data = ['\r', '\n'] := rfl
  intro h
  have hlen := congrArg List.length h
  rw [statusLine] at hlen
  simp [String.data_append, hrn] at hlen

/-- The status line is never the empty string. -/
theorem statusLine_ne_empty (s : Nat) (m : String) : statusLine s m ≠ "" := by
  intro h
  exact statusLine_data_ne_nil s m ((congrArg String.data h).trans rfl)

/-- The encoded status line is never empty. -/
theorem strBytes_statusLine_ne_nil (s : Nat) (m : String) :
    strBytes (statusLine s m) ≠ [] :=
  strBytes_ne_nil (statusLine s m) (statusLine_data_ne_nil s m)

/-- `flush_status` always leaves the buffer empty. -/
theorem flush_status_buffer (c : Connection) : (flush_status c).response_buffer = "" := by
  rw [flush_status]
  split <;> rfl

/-- After any byte has been counted, `flush_status` only clears the buffer:
nothing further is written. -/
theorem flush_status_of_sent (c : Connection) (h : c.response_size ≠ 0) :
    flush_status c = { c with response_buffer := "" } := by
  rw [flush_status, if_neg]
  intro hc
  exact h hc.2

/-- With a pending status line and nothing sent yet, `flush_status` writes the
encoded buffer. -/
theorem flush_status_of_pending (c : Connection) (hb : c.response_buffer ≠ "")
    (hs : c.response_size = 0) :
    flush_status c =
      { c with response_size := (strBytes c.response_buffer).length,
               wire := c.wire ++ [strBytes c.response_buffer],
               response_buffer := "" } := by
  rw [flush_status, if_pos ⟨hb, hs⟩, hs]
  simp

/-- Running a concatenation of call sequences is running them in turn. -/
theorem run_append (c : Connection) (l1 l2 : List WriterOp) :
    run c (l1 ++ l2) = run (run c l1) l2 := by
  induction l1 generalizing c with
  | nil => rfl
  | cons op ops ih => simp [run, ih]

/-- After the first byte is on the wire, a run only appends the encoded
`writeBody` payloads: no further status line is ever written. -/
theorem run_after_send (ops : List WriterOp) : ∀ c : Connection, c.response_size ≠ 0 →
    (run c ops).wire = c.wire ++ bodyChunks ops ∧ (run c ops).response_size ≠ 0 := by
  induction ops with
  | nil =>
      intro c h
      simp [run, bodyChunks, h]
  | cons op ops ih =>
      intro c h
      cases op with
      | writeStatus s m =>
          have hnext := ih (write_status c s m) (by simpa [write_status] using h)
          simpa [run, applyOp, write_status, bodyChunks] using hnext
      | flush =>
          have hf := flush_status_of_sent c h
          have hnext := ih (flush_status c) (by rw [hf]; simpa using h)
          rw [hf] at hnext
          simpa [run, applyOp, hf, bodyChunks] using hnext
      | writeBody d =>
          have hf := flush_status_of_sent c h
          have hsz : (write_body c d).response_size ≠ 0 := by
            simp [write_body, hf]
            intro hc
            exact absurd hc h
          have hnext := ih (write_body c d) hsz
          have hw : (write_body c d).wire = c.wire ++ [d.encode] := by
            simp [write_body, hf]
          rw [hw] at hnext
          simp [run, applyOp, bodyChunks, hnext.1, hnext.2]

/-- A run consisting only of `writeStatus` calls writes nothing, leaves the
byte counter untouched, and leaves the status line of the last call pending
in the buffer. -/
theorem run_status_only (ss : List WriterOp) :
    (∀ op ∈ ss, ∃ s' m', op = WriterOp.writeStatus s' m') → ∀ c : Connection,
      (run c ss).wire = c.wire ∧ (run c ss).response_size = c.response_size ∧
        (run c ss).response_buffer =
          (match pendingOf ss with
           | some (s, m) => statusLine s m
           | none => c.response_buffer) := by
  induction ss using List.reverseRecOn with
  | nil =>
      intro _ c
      simp [run, pendingOf]
  | append_singleton ss op ih =>
      intro hws c
      obtain ⟨s, m, rfl⟩ := hws op (by simp)
      have hss : ∀ op ∈ ss, ∃ s' m', op = WriterOp.writeStatus s' m' :=
        fun op hop => hws op (by simp [hop])
      obtain ⟨hw, hsz, _⟩ := ih hss c
      rw [run_append]
      refine ⟨?_, ?_, ?_⟩
      · simpa [run, applyOp, write_status] using hw
      · simpa [run, applyOp, write_status] using hsz
      · simp [run, applyOp, write_status, pendingOf, List.foldl_append]

/-- `flush_status` never decreases the byte counter. -/
theorem flush_status_size_le (c : Connection) :
    c.response_size ≤ (flush_status c).response_size := by
  rw [flush_status]
  split
  · exact Nat.le_add_right _ _
  · exact Nat.le_refl _

/-- One writer call never decreases the byte counter. -/
theorem applyOp_size_mono (c : Connection) (op : WriterOp) :
    c.response_size ≤ (applyOp c op).response_size := by
  cases op with
  | writeStatus s m => exact Nat.le_refl _
  | flush => exact flush_status_size_le c
  | writeBody d =>
      exact Nat.le_trans (flush_status_size_le c) (Nat.le_add_right _ _)

/-- `flush_status` preserves "the counter equals the bytes on the wire". -/
theorem flush_status_sizeInv (c : Connection)
    (h : c.response_size = (c.wire.map List.length).sum) :
    (flush_status c).response_size = ((flush_status c).wire.map List.length).sum := by
  rw [flush_status]
  split
  · simp [h]
  · simpa using h

/-- One writer call preserves "the counter equals the bytes on the wire". -/
theorem applyOp_sizeInv (c : Connection) (op : WriterOp)
    (h : c.response_size = (c.wire.map List.length).sum) :
    (applyOp c op).response_size = (((applyOp c op).wire).map List.length).sum := by
  cases op with
  | writeStatus s m => simpa [applyOp, write_status] using h
  | flush => exact flush_status_sizeInv c h
  | writeBody d =>
      have hf := flush_status_sizeInv c h
      simp [applyOp, write_body, hf]

/-- A whole run preserves "the counter equals the bytes on the wire". -/
theorem run_sizeInv (ops : List WriterOp) : ∀ c : Connection,
    c.response_size = (c.wire.map List.length).sum →
    (run c ops).response_size = ((run c ops).wire.map List.length).sum := by
  induction ops with
  | nil => intro c h; simpa [run] using h
  | cons op ops ih =>
      intro c h
      rw [run]
      exact ih _ (applyOp_sizeInv c op h)

/-- Replacing an already-empty buffer by the empty string is the identity. -/
theorem setBuffer_self (c : Connection) (h : c.response_buffer = "") :
    { c with response_buffer := "" } = c := by
  cases c
  simp_all

/-! ## Claim theorems -/

/-- C1: for every interleaving of `writeStatus` and `writeBody` calls in
which at least one `writeStatus` (the last one carrying `(s, m)`) precedes
the first `writeBody`, the socket receives exactly one status line — the one
pending at the first `writeBody` — followed by exactly the encoded body
payloads in order; `writeStatus` calls after the first `writeBody` leave the
bytes on the wire unaffected (and, the model being total functions, raise
nothing). -/
theorem claim_C1_single_status_line (host ts : String) (ss : List WriterOp)
    (s : Nat) (m : String) (d : Data) (rest : List WriterOp)
    (hws : ∀ op ∈ ss, ∃ s' m', op = WriterOp.writeStatus s' m')
    (hlast : pendingOf ss = some (s, m)) :
    (run (connectionMade host ts) (ss ++ WriterOp.writeBody d :: rest)).wire
      = strBytes (statusLine s m) :: d.encode :: bodyChunks rest := by
  rw [run_append]
  obtain ⟨hw, hsz, hbuf⟩ := run_status_only ss hws (connectionMade host ts)
  rw [hlast] at hbuf
  have hbuf' : (run (connectionMade host ts) ss).response_buffer = statusLine s m := hbuf
  have hsz' : (run (connectionMade host ts) ss).response_size = 0 := by
    rw [hsz]; rfl
  have hw' : (run (connectionMade host ts) ss).wire = [] := by
    rw [hw]; rfl
  have hflush := flush_status_of_pending (run (connectionMade host ts) ss)
    (by rw [hbuf']; exact statusLine_ne_empty s m) hsz'
  rw [hbuf', hw'] at hflush
  have hbody : write_body (run (connectionMade host ts) ss) d
      = { run (connectionMade host ts) ss with
            response_buffer := "",
            response_size := (strBytes (statusLine s m)).length + d.encode.length,
            wire := [strBytes (statusLine s m), d.encode] } := by
    rw [write_body, hflush]
    simp
  have hpos : 0 < (strBytes (statusLine s m)).length :=
    List.length_pos.mpr (strBytes_statusLine_ne_nil s m)
  have hsent : (write_body (run (connectionMade host ts) ss) d).response_size ≠ 0 := by
    rw [hbody]
    show (strBytes (statusLine s m)).length + d.encode.length ≠ 0
    omega
  obtain ⟨hwire, _⟩ := run_after_send rest (write_body (run (connectionMade host ts) ss) d) hsent
  rw [run]
  show (run (write_body (run (connectionMade host ts) ss) d) rest).wire = _
  rw [hwire, hbody]
  simp

/-- Witness for C1 at a concrete interleaving: two `writeStatus` calls, a
body chunk, then a late `writeStatus`, a second body chunk and a flush. -/
theorem claim_C1_witness :
    (run (connectionMade ("peer") ("ts"))
        ([WriterOp.writeStatus 10 ("INPUT"), WriterOp.writeStatus 20 ("text/gemini")] ++
          WriterOp.writeBody (Data.str ("# Hello\n")) ::
            [WriterOp.writeStatus 40 ("oops"), WriterOp.writeBody (Data.bytes [104, 105]),
              WriterOp.flush])).wire
      = strBytes (statusLine 20 ("text/gemini")) :: (Data.str ("# Hello\n")).encode ::
          bodyChunks [WriterOp.writeStatus 40 ("oops"), WriterOp.writeBody (Data.bytes [104, 105]),
            WriterOp.flush] := by
  apply claim_C1_single_status_line
  · intro op hop
    rcases List.mem_cons.mp hop with rfl | hop'
    · exact ⟨10, ("INPUT"), rfl⟩
    · rcases List.mem_cons.mp hop' with rfl | hop''
      · exact ⟨20, ("text/gemini"), rfl⟩
      · cases hop''
  · rfl

/-- C3 (amended): `bytesSent` starts at 0, never decreases, and at every
point equals the total number of bytes written to the socket — the encoded
body payloads plus the flushed status line, if one was flushed — not the
body payloads alone. -/
theorem claim_C3_bytes_sent_accounting (host ts : String) (ops : List WriterOp) :
    (connectionMade host ts).response_size = 0 ∧
    (run (connectionMade host ts) ops).response_size
      = ((run (connectionMade host ts) ops).wire.map List.length).sum ∧
    (∀ c : Connection, ∀ op : WriterOp, c.response_size ≤ (applyOp c op).response_size) := by
  refine ⟨rfl, ?_, applyOp_size_mono⟩
  exact run_sizeInv ops (connectionMade host ts) rfl

/-- Counterexample to C3 as stated: one `writeStatus` followed by a single
`writeBody` of the one-byte payload `"a"`; `bytesSent` is then 17 (the
16-byte flushed status line plus the 1 body byte), not the 1 byte the claim
predicts. -/
theorem claim_C3_counterexample :
    (run (connectionMade ("peer") ("ts"))
        [WriterOp.writeStatus 20 ("text/gemini"), WriterOp.writeBody (Data.str ("a"))]).response_size
      ≠ (Data.str ("a")).encode.length := by
  decide

/-- C8: `flush_status` is idempotent — it always leaves the pending buffer
empty, and a second consecutive flush is the identity on the whole state
(nothing further reaches the socket, `bytesSent` unchanged). -/
theorem claim_C8_flush_idempotent (c : Connection) :
    (flush_status c).response_buffer = "" ∧
    flush_status (flush_status c) = flush_status c := by
  refine ⟨flush_status_buffer c, ?_⟩
  have hb := flush_status_buffer c
  conv_lhs => rw [flush_status]
  rw [if_neg]
  · exact setBuffer_self (flush_status c) hb
  · intro hc
    exact hc.1 hb

/-- C10: a `writeBody` whose payload encodes to zero bytes still commits the
pending status line: with a non-empty buffer and nothing sent yet, the
status line is flushed to the socket, the buffer is cleared, and the byte
counter advances by the status line alone. -/
theorem claim_C10_empty_body_flushes (c : Connection) (d : Data)
    (hb : c.response_buffer ≠ "") (hs : c.response_size = 0) (hd : d.encode = []) :
    (write_body c d).wire = c.wire ++ [strBytes c.response_buffer, []] ∧
    (write_body c d).response_size = (strBytes c.response_buffer).length ∧
    (write_body c d).response_buffer = "" := by
  rw [write_body, flush_status_of_pending c hb hs, hd]
  simp

/-- Witness for C10: a pending `20 text/gemini` status line and the empty
string payload; the encoded status line alone reaches the socket. -/
theorem claim_C10_witness :
    (write_body (write_status (connectionMade ("peer") ("ts")) 20 ("text/gemini"))
        (Data.str (""))).wire
      = [strBytes (statusLine 20 ("text/gemini")), []] := by
  have h := claim_C10_empty_body_flushes
    (write_status (connectionMade ("peer") ("ts")) 20 ("text/gemini")) (Data.str (""))
    (by decide) (by decide) (by decide)
  simpa [write_status, connectionMade] using h.1

/-- The empty byte string is valid UTF-8 and decodes to the empty string
(`b"".decode() == ""`). -/
theorem fromUTF8_nil : String.fromUTF8? (ByteArray.mk (Array.mk ([] : List UInt8))) = some ("") := by
  have hv : String.validateUTF8 (ByteArray.mk (Array.mk ([] : List UInt8))) = true := by
    rw [String.validateUTF8]
    rw [String.validateUTF8.loop.eq_def]
    simp [ByteArray.size]
  rw [String.fromUTF8?]
  rw [dif_pos hv]
  have hloop : String.fromUTF8 (ByteArray.mk (Array.mk ([] : List UInt8))) hv = "" := by
    rw [String.fromUTF8]
    rw [String.fromUTF8.loop.eq_def]
    simp [ByteArray.size]
  rw [hloop]

/-- The empty request line parses successfully to the empty URL. -/
theorem parse_header_nil : parse_header [] = Except.ok ("") := by
  rw [parse_header]
  rw [if_neg (by simp)]
  rw [fromUTF8_nil]

/-- C2 (amended): on a successful parse the terminal sequence — flush any
pending status line, invoke the access logger, close the transport — runs
exactly once, whether or not the application failed; but on a `parse_header`
failure the handler flushes the bad-request status and closes the transport
without ever invoking the access logger (the exception is re-raised before
the `try/finally` block is entered). -/
theorem claim_C2_terminal_sequence (host ts : String) (request : List UInt8)
    (app : AppBehavior) :
    ((∃ e, parse_header request = Except.error e) →
        (handle host ts request app).logCalls = 0 ∧
        (handle host ts request app).closeCalls = 1 ∧
        (handle host ts request app).conn.response_buffer = "" ∧
        (handle host ts request app).raised = true) ∧
    (∀ url, parse_header request = Except.ok url →
        (handle host ts request app).logCalls = 1 ∧
        (handle host ts request app).closeCalls = 1 ∧
        (handle host ts request app).conn.response_buffer = "" ∧
        (handle host ts request app).accessLog = log_request (handle host ts request app).conn ∧
        (handle host ts request app).raised = false) := by
  constructor
  · rintro ⟨e, hp⟩
    simp [handle, hp, flush_status_buffer]
  · intro url hp
    simp [handle, hp, flush_status_buffer]

/-- Counterexample to C2 as stated: a request line of 1025 bytes fails to
parse, and the handler then never invokes the access logger — the access-log
step of the claimed terminal sequence is not reached on that path. -/
theorem claim_C2_counterexample :
    (handle ("h") ("t") (List.replicate 1025 65) ⟨[], false⟩).logCalls = 0 ∧
    (handle ("h") ("t") (List.replicate 1025 65) ⟨[], false⟩).raised = true := by
  have hp : parse_header (List.replicate 1025 65) = Except.error ProtocolError.tooLong := by
    rw [parse_header]
    rw [if_pos (by rw [List.length_replicate]; omega)]
  simp only [handle, hp]
  exact ⟨trivial, trivial⟩

/-- Witness for C2: the failing branch at a concrete 1025-byte request
and the successful branch at the concrete empty request. -/
theorem claim_C2_witness :
    (handle ("h") ("t") (List.replicate 1025 65) ⟨[], false⟩).closeCalls = 1 ∧
    (handle ("h") ("t") [] ⟨[], false⟩).logCalls = 1 ∧
    (handle ("h") ("t") [] ⟨[], false⟩).closeCalls = 1 := by
  have h1 := (claim_C2_terminal_sequence ("h") ("t") (List.replicate 1025 65) ⟨[], false⟩).1
    ⟨ProtocolError.tooLong, by rw [parse_header]; rw [if_pos (by rw [List.length_replicate]; omega)]⟩
  have h2 := (claim_C2_terminal_sequence ("h") ("t") [] ⟨[], false⟩).2 ("") parse_header_nil
  exact ⟨h1.2.1, h2.1, h2.2.1⟩

/-- C4: `parse_header` succeeds exactly on raw lines of at most 1024 bytes
that decode as UTF-8, and then returns the decoded string unchanged;
otherwise it fails with a malformed-request error, and on that path the
handler sends only the fixed bad-request status line — no body bytes are
ever written on that connection. -/
theorem claim_C4_parse_header (request : List UInt8) :
    (∀ s, parse_header request = Except.ok s ↔
        request.length ≤ 1024 ∧
          String.fromUTF8? (ByteArray.mk (Array.mk request)) = some s) ∧
    (∀ host ts app e, parse_header request = Except.error e →
        (handle host ts request app).conn.wire
          = [strBytes (statusLine Status.BAD_REQUEST ("Malformed request"))]) := by
  constructor
  · intro s
    by_cases hlen : request.length > 1024
    · rw [parse_header, if_pos hlen]
      simp
      omega
    · rw [parse_header, if_neg hlen]
      cases hdec : String.fromUTF8? (ByteArray.mk (Array.mk request)) with
      | some u => simp [Nat.le_of_not_lt hlen, eq_comm]
      | none => simp
  · intro host ts app e hp
    simp only [handle, hp]
    rw [flush_status_of_pending _ (statusLine_ne_empty _ _) rfl]
    simp [write_status, connectionMade]

/-- Witness for C4: the 1025-byte request fails and the handler's wire holds
exactly the encoded bad-request status line. -/
theorem claim_C4_witness :
    (handle ("h") ("t") (List.replicate 1025 65) ⟨[], false⟩).conn.wire
      = [strBytes (statusLine Status.BAD_REQUEST ("Malformed request"))] := by
  exact (claim_C4_parse_header (List.replicate 1025 65)).2 ("h") ("t") ⟨[], false⟩
    ProtocolError.tooLong (by rw [parse_header]; rw [if_pos (by rw [List.length_replicate]; omega)])

/-- C5: if the transport exposes a peer certificate the request context
contains all nine TLS-identity keys and `client_certificate` is non-null;
if no certificate is presented none of the nine keys are present and
`client_certificate` is null. -/
theorem claim_C5_tls_identity (url hostname version path query : String)
    (client_addr : Address) (server_port : Nat) (cert : Option ClientCert) :
    (∀ c, cert = some c →
        (∀ k ∈ tlsIdentityKeys,
          ((build_environ url hostname version path query client_addr server_port
              cert).lookup k).isSome = true) ∧
        (build_environ url hostname version path query client_addr server_port
            cert).lookup ("client_certificate") = some (EnvValue.cert c)) ∧
    (cert = none →
        (∀ k ∈ tlsIdentityKeys,
          (build_environ url hostname version path query client_addr server_port
              cert).lookup k = none) ∧
        (build_environ url hostname version path query client_addr server_port
            cert).lookup ("client_certificate") = some EnvValue.null) := by
  constructor
  · rintro c rfl
    constructor
    · intro k hk
      fin_cases hk <;> simp [build_environ, dictUpdate, tls_environ, List.lookup]
    · simp [build_environ, dictUpdate, tls_environ, List.lookup]
  · rintro rfl
    constructor
    · intro k hk
      fin_cases hk <;> simp [build_environ, List.lookup]
    · simp [build_environ, List.lookup]

/-- Witness for C5 at a concrete context: with `exampleCert` the identity
keys are present and the certificate is stored; without it the identity keys
are absent and `client_certificate` is null. -/
theorem claim_C5_witness :
    ((build_environ ("gemini://example.org/") ("example.org") ("0.2.0") ("/") ("")
        ⟨("203.0.113.5"), 1965⟩ 1965 (some exampleCert)).lookup ("AUTH_TYPE")).isSome = true ∧
    (build_environ ("gemini://example.org/") ("example.org") ("0.2.0") ("/") ("")
        ⟨("203.0.113.5"), 1965⟩ 1965 (some exampleCert)).lookup ("client_certificate")
      = some (EnvValue.cert exampleCert) ∧
    (build_environ ("gemini://example.org/") ("example.org") ("0.2.0") ("/") ("")
        ⟨("203.0.113.5"), 1965⟩ 1965 none).lookup ("AUTH_TYPE") = none ∧
    (build_environ ("gemini://example.org/") ("example.org") ("0.2.0") ("/") ("")
        ⟨("203.0.113.5"), 1965⟩ 1965 none).lookup ("client_certificate")
      = some EnvValue.null := by
  have h1 := (claim_C5_tls_identity ("gemini://example.org/") ("example.org") ("0.2.0") ("/")
      ("") ⟨("203.0.113.5"), 1965⟩ 1965 (some exampleCert)).1 exampleCert rfl
  have h2 := (claim_C5_tls_identity ("gemini://example.org/") ("example.org") ("0.2.0") ("/")
      ("") ⟨("203.0.113.5"), 1965⟩ 1965 none).2 rfl
  exact ⟨h1.1 ("AUTH_TYPE") (by simp [tlsIdentityKeys]), h1.2,
    h2.1 ("AUTH_TYPE") (by simp [tlsIdentityKeys]), h2.2⟩

/-- C7 at its failing input: the code stores the remote peer's port in
`SERVER_PORT`.  With the server listening on port 1965 and the peer at
`203.0.113.5:54321`, the context's `SERVER_PORT` is `"54321"` — the peer's
port, not the server's listening port `"1965"` as the claim states. -/
theorem claim_C7_server_port_is_peer_port :
    (build_environ ("gemini://example.org/") ("example.org") ("0.2.0") ("/") ("")
        ⟨("203.0.113.5"), 54321⟩ 1965 none).lookup ("SERVER_PORT")
      = some (EnvValue.str ("54321")) ∧
    Nat.repr 1965 ≠ "54321" := by
  exact ⟨by decide, by decide⟩

/-- C9: `REMOTE_ADDR` and `REMOTE_HOST` are always equal — both hold the
peer's host address string (`client_addr.host`). -/
theorem claim_C9_remote_addr_eq_remote_host (url hostname version path query : String)
    (client_addr : Address) (server_port : Nat) (cert : Option ClientCert) :
    (build_environ url hostname version path query client_addr server_port
        cert).lookup ("REMOTE_ADDR") = some (EnvValue.str client_addr.host) ∧
    (build_environ url hostname version path query client_addr server_port
        cert).lookup ("REMOTE_HOST") = some (EnvValue.str client_addr.host) := by
  cases cert <;> simp [build_environ, dictUpdate, tls_environ, List.lookup]

/-- C6 (amended): once the status line has been flushed, no further
status-line bytes are ever written — the transmitted line is frozen on the
wire — but the session's `status` and `meta` fields are still overwritten by
every later `write_status` call, and the access log reports these
last-recorded values, which can therefore differ from the transmitted
status line. -/
theorem claim_C6_fields_mutable_after_flush (c : Connection) (s : Nat) (m : String) :
    ((write_status c s m).status = some s ∧ (write_status c s m).meta = some m ∧
      (write_status c s m).wire = c.wire ∧
      (write_status c s m).response_size = c.response_size) ∧
    (c.response_size ≠ 0 →
      (flush_status c).wire = c.wire ∧
      (flush_status c).response_size = c.response_size) ∧
    (∀ u, c.url = some u → c.status = some s → c.meta = some m →
      log_request c = some (c.host ++ " [" ++ c.timestamp ++ "] \"" ++ u ++ "\" "
        ++ Nat.repr s ++ " " ++ m ++ " " ++ Nat.repr c.response_size)) := by
  refine ⟨⟨rfl, rfl, rfl, rfl⟩, ?_, ?_⟩
  · intro h
    rw [flush_status_of_sent c h]
    exact ⟨rfl, rfl⟩
  · intro u hu hs hm
    simp [log_request, hu, hs, hm]

/-- Counterexample to C6 as stated: the application sets `20 text/gemini`
and sends one chunk (flushing the status line), then the handler's error
path calls `write_status` with the CGI-error status.  The `status` and
`meta` fields are modified after the flush, and the access-log line reports
`42 An unexpected error occurred` although the line transmitted to the
client was `20\ttext/gemini\r\n`. -/
theorem claim_C6_counterexample :
    (let c1 := write_body (write_status { connectionMade ("203.0.113.5") ("ts") with
          url := some ("gemini://example.org/") } 20 ("text/gemini")) (Data.str ("# Hello\n"));
     let c2 := write_status c1 42 ("An unexpected error occurred");
     let c3 := flush_status c2;
     c1.wire = [strBytes (statusLine 20 ("text/gemini")), strBytes ("# Hello\n")] ∧
     c1.status = some 20 ∧
     c2.status = some 42 ∧ c2.status ≠ c1.status ∧
     c2.meta = some ("An unexpected error occurred") ∧
     c3.wire = c1.wire ∧
     log_request c3
       = some ("203.0.113.5 [ts] \"gemini://example.org/\" 42 An unexpected error occurred 24")) := by
  decide

/-- Witness for C6 (amended) at a concrete state: after one byte of body a
flush writes nothing more, and the access logger formats the recorded
fields. -/
theorem claim_C6_witness :
    (flush_status (write_body (write_status (connectionMade ("h") ("t")) 20 ("ok"))
        (Data.bytes [1]))).wire
      = (write_body (write_status (connectionMade ("h") ("t")) 20 ("ok")) (Data.bytes [1])).wire ∧
    log_request (write_status { connectionMade ("h") ("t") with url := some ("u") } 20 ("ok"))
      = some ("h" ++ " [" ++ "t" ++ "] \"" ++ "u" ++ "\" " ++ Nat.repr 20 ++ " " ++ "ok"
          ++ " " ++ Nat.repr 0) := by
  refine ⟨?_, ?_⟩
  · exact ((claim_C6_fields_mutable_after_flush
      (write_body (write_status (connectionMade ("h") ("t")) 20 ("ok")) (Data.bytes [1]))
      0 ("")).2.1 (by decide)).1
  · exact (claim_C6_fields_mutable_after_flush
      (write_status { connectionMade ("h") ("t") with url := some ("u") } 20 ("ok"))
      20 ("ok")).2.2 ("u") rfl rfl rfl
